import Mathlib

/-!
Shallow embedding of `src/libobs/obs-output.c` (output-management core of
obs-studio): the encoded-packet interleaver, the data-capture state machine,
capability negotiation and encoder binding.  Each definition mirrors the
corresponding C function; collaborator calls (encoders, raw pipelines,
signal bus) are recorded as events of an explicit trace.
-/

namespace ObsOutput

/-- `enum obs_encoder_type`: the media type carried by an encoder packet. -/
inductive EncoderType
  | video
  | audio
deriving DecidableEq, Repr

/-- `struct encoder_packet`, restricted to the fields `obs-output.c` reads:
media type, decode/presentation timestamps and the timebase denominator. -/
structure EncoderPacket where
  type : EncoderType
  dts : Int
  pts : Int
  timebase_den : Int
deriving DecidableEq, Repr

def MICROSECOND_DEN : Int := 1000000

/-- `convert_packet_dts`: `packet->dts * MICROSECOND_DEN / packet->timebase_den`.
C `int64_t` division truncates toward zero, hence `Int.tdiv`. -/
def convert_packet_dts (packet : EncoderPacket) : Int :=
  (packet.dts * MICROSECOND_DEN).tdiv packet.timebase_den

/-- `struct il_packet`: a buffered interleaved packet with its input and
output microsecond timestamps and its owned copy of the encoder packet. -/
structure ILPacket where
  input_ts_us : Int
  output_ts_us : Int
  packet : EncoderPacket
deriving DecidableEq, Repr

/-- The AV-sync portion of `struct obs_output` that the interleaver touches
under `interleaved_mutex`: the two received flags, the first-video anchor,
the per-stream dts offsets and the pending packet buffer. -/
structure InterleaveState where
  received_video : Bool
  received_audio : Bool
  first_video_ts : Int
  video_offset : Int
  audio_offset : Int
  buffer : List ILPacket
deriving DecidableEq, Repr

/-- The zero-initialized AV-sync state (`bzalloc` in `obs_output_create`). -/
def il0 : InterleaveState :=
  { received_video := false
    received_audio := false
    first_video_ts := 0
    video_offset := 0
    audio_offset := 0
    buffer := [] }

/-- `prepare_interleaved_packet`.  The C local `struct il_packet out` starts
as uninitialized stack memory, modelled by the explicit `out0` argument whose
fields remain wherever the function does not overwrite them.  Returns the
updated state, the (possibly only partially written) `out` record and the
C function's boolean result. -/
def prepare_interleaved_packet (s : InterleaveState) (out0 : ILPacket)
    (packet : EncoderPacket) : InterleaveState × ILPacket × Bool :=
  let out1 := { out0 with input_ts_us := convert_packet_dts packet }
  if packet.type = EncoderType.video then
    let s1 :=
      if !s.received_video then
        { s with
            first_video_ts := out1.input_ts_us
            video_offset := packet.dts
            received_video := true }
      else s
    let offset := s1.video_offset
    let dup := { packet with dts := packet.dts - offset, pts := packet.pts - offset }
    (s1, { out1 with packet := dup, output_ts_us := convert_packet_dts dup }, true)
  else
    if !s.received_video || out1.input_ts_us < s.first_video_ts then
      (s, out1, false)
    else
      let s1 :=
        if !s.received_audio then
          { s with audio_offset := packet.dts, received_audio := true }
        else s
      let offset := s1.audio_offset
      let dup := { packet with dts := packet.dts - offset, pts := packet.pts - offset }
      (s1, { out1 with packet := dup, output_ts_us := convert_packet_dts dup }, true)

/-- `da_insert(da, idx, item)`: insert `item` at position `idx`. -/
def da_insert (l : List ILPacket) (idx : Nat) (item : ILPacket) : List ILPacket :=
  l.take idx ++ item :: l.drop idx

/-- The linear scan of `interleave_packets`: index of the first buffered entry
whose `output_ts_us` is strictly greater than `ts`, or the buffer length. -/
def find_insert_idx (ts : Int) : List ILPacket → Nat
  | [] => 0
  | cur :: rest => if ts < cur.output_ts_us then 0 else find_insert_idx ts rest + 1

/-- `send_interleaved`: pop the buffer's front entry and forward it to the
sink's `encoded_packet` callback (the forwarded packet is returned). -/
def send_interleaved (s : InterleaveState) : InterleaveState × Option ILPacket :=
  match s.buffer with
  | [] => (s, none)
  | out :: rest => ({ s with buffer := rest }, some out)

/-- `interleave_packets`, exactly as in the source: note the negated guard
`if (!prepare_interleaved_packet(output, &out, packet))`, so the insertion
and release branch runs precisely when preparation FAILED.  `junk` models the
uninitialized stack contents of the C local `out`.  Returns the new state and
the list of packets forwarded to the sink by this call. -/
def interleave_packets (junk : ILPacket) (s : InterleaveState)
    (packet : EncoderPacket) : InterleaveState × List ILPacket :=
  let r := prepare_interleaved_packet s junk packet
  let s1 := r.1
  let out := r.2.1
  if !r.2.2 then
    let idx := find_insert_idx out.output_ts_us s1.buffer
    let s2 := { s1 with buffer := da_insert s1.buffer idx out }
    if s2.received_audio && s2.received_video then
      let r2 := send_interleaved s2
      (r2.1, r2.2.toList)
    else
      (s2, [])
  else
    (s1, [])

/-- Feed a sequence of encoder packets through `interleave_packets`, supplying
one junk record (the stack contents of `out`) per call, and collect every
packet released to the sink in order. -/
def interleave_run (junk0 : ILPacket) :
    List ILPacket → InterleaveState → List EncoderPacket →
      InterleaveState × List ILPacket
  | _, s, [] => (s, [])
  | junks, s, p :: rest =>
    let r := interleave_packets (junks.headD junk0) s p
    let r2 := interleave_run junk0 junks.tail r.1 rest
    (r2.1, r.2 ++ r2.2)

/-- A video packet with equal dts and pts. -/
def vpkt (d den : Int) : EncoderPacket :=
  { type := EncoderType.video, dts := d, pts := d, timebase_den := den }

/-- An audio packet with equal dts and pts. -/
def apkt (d den : Int) : EncoderPacket :=
  { type := EncoderType.audio, dts := d, pts := d, timebase_den := den }

/-- An all-zero stack image for the C local `out`. -/
def junkZ : ILPacket :=
  { input_ts_us := 0, output_ts_us := 0, packet := vpkt 0 1 }

/-- Boolean test that a list of integers is non-decreasing. -/
def nondec : List Int → Bool
  | [] => true
  | [_] => true
  | a :: b :: rest => decide (a ≤ b) && nondec (b :: rest)

/-- The dts values of the packets of one stream, in arrival order. -/
def stream_dts (t : EncoderType) (ps : List EncoderPacket) : List Int :=
  (ps.filter (fun p => p.type = t)).map (fun p => p.dts)

/-- Modelled from the spec: the capability flag bits of `obs.h` (the header is
not under src/).  The spec only requires three distinguishable bits for
raw-vs-encoded and the two media; the concrete values are immaterial. -/
def OBS_OUTPUT_VIDEO : Nat := 1

/-- Modelled from the spec: audio capability bit of `obs.h`. -/
def OBS_OUTPUT_AUDIO : Nat := 2

/-- Modelled from the spec: encoded capability bit of `obs.h`. -/
def OBS_OUTPUT_ENCODED : Nat := 4

/-- Modelled from the spec: the success code carried by the `start` signal
(`obs.h` is not under src/; the spec's scenario fixes it to 0). -/
def OBS_OUTPUT_SUCCESS : Int := 0

/-- Collaborator invocations performed by the core, recorded as a trace:
encoder start/stop (with whether the interleaving callback or the sink's
native callback was passed), raw pipeline connect/disconnect (with whether a
conversion hint was passed), signal emissions, and the type hooks. -/
inductive Event
  | encoderStart (t : EncoderType) (interleaved : Bool)
  | encoderStop (t : EncoderType) (interleaved : Bool)
  | rawVideoConnect (conversion : Bool)
  | rawAudioConnect (conversion : Bool)
  | rawVideoDisconnect
  | rawAudioDisconnect
  | sigStart (code : Int)
  | sigStop
  | dataApply
  | hookUpdate
  | hookStart
  | hookStop
  | hookDestroy
  | deregister
  | freePackets
  | freeChannels
deriving DecidableEq, Repr

/-- The fields of `struct obs_output_info` that the modelled operations read:
the capability flag set, whether an `update` hook exists, and the value the
type's `start` hook returns. -/
structure obs_output_info where
  flags : Nat
  has_update : Bool
  start_result : Bool
deriving DecidableEq, Repr

/-- `struct obs_encoder`, restricted to what `obs-output.c` reads: an identity
and the declared media type (`encoder->info.type`). -/
structure obs_encoder where
  eid : Nat
  etype : EncoderType
deriving DecidableEq, Repr

/-- `struct obs_output`: type info, lifecycle flags, media/encoder references
(`Option` models a possibly-NULL pointer), conversion-hint validity flags,
the settings snapshot and the mutex-guarded AV-sync state `il`. -/
structure obs_output where
  info : obs_output_info
  valid : Bool
  active : Bool
  data : Bool
  video : Bool
  audio : Bool
  video_encoder : Option obs_encoder
  audio_encoder : Option obs_encoder
  video_conversion_set : Bool
  audio_conversion_set : Bool
  settings : List (Nat × Int)
  il : InterleaveState
deriving DecidableEq, Repr

/-- `convert_flags`: `encoded` always comes from the type's own flag set;
the requested flags default to the type's full set when zero and are
otherwise intersected with it. -/
def convert_flags (info_flags flags : Nat) : Bool × Bool × Bool :=
  let encoded := (info_flags &&& OBS_OUTPUT_ENCODED) != 0
  let flags := if flags = 0 then info_flags else flags &&& info_flags
  (encoded, (flags &&& OBS_OUTPUT_VIDEO) != 0, (flags &&& OBS_OUTPUT_AUDIO) != 0)

/-- `can_begin_data_capture` (static): each requested medium needs its
producer — the matching encoder when encoded, the raw pipeline otherwise. -/
def can_begin_data_capture (output : obs_output)
    (encoded has_video has_audio : Bool) : Bool :=
  if has_video && (if encoded then !output.video_encoder.isSome else !output.video) then
    false
  else if has_audio && (if encoded then !output.audio_encoder.isSome else !output.audio) then
    false
  else
    true

/-- `hook_data_capture`.  In the encoded branch the source assigns
`output->received_video = false` on two consecutive lines and never touches
`received_audio`; the model reproduces both assignments verbatim.  Encoder
starts receive the interleaving callback exactly when both media are
requested; raw connects carry the conversion hint only when its validity
flag is set. -/
def hook_data_capture (output : obs_output)
    (encoded has_video has_audio : Bool) : obs_output × List Event :=
  if encoded then
    let output := { output with il := { output.il with received_video := false } }
    let output := { output with il := { output.il with received_video := false } }
    (output,
      (if has_video then [Event.encoderStart EncoderType.video (has_video && has_audio)] else []) ++
      (if has_audio then [Event.encoderStart EncoderType.audio (has_video && has_audio)] else []))
  else
    (output,
      (if has_video then [Event.rawVideoConnect output.video_conversion_set] else []) ++
      (if has_audio then [Event.rawAudioConnect output.audio_conversion_set] else []))

/-- `obs_output_can_begin_data_capture`: null and already-active handles are
refused before the producer requirements are checked. -/
def obs_output_can_begin_data_capture (o : Option obs_output) (flags : Nat) : Bool :=
  match o with
  | none => false
  | some output =>
    if output.active then false
    else
      let c := convert_flags output.info.flags flags
      can_begin_data_capture output c.1 c.2.1 c.2.2

/-- `obs_output_begin_data_capture`: guarded begin; on success it hooks the
producers, sets `active` and emits `start` with the success code. -/
def obs_output_begin_data_capture (o : Option obs_output) (flags : Nat) :
    Option obs_output × List Event × Bool :=
  match o with
  | none => (none, [], false)
  | some output =>
    if output.active then (some output, [], false)
    else
      let c := convert_flags output.info.flags flags
      if !can_begin_data_capture output c.1 c.2.1 c.2.2 then
        (some output, [], false)
      else
        let h := hook_data_capture output c.1 c.2.1 c.2.2
        (some { h.1 with active := true },
         h.2 ++ [Event.sigStart OBS_OUTPUT_SUCCESS],
         true)

/-- `obs_output_end_data_capture`: no-op on null or inactive handles;
otherwise recomputes the flags with `convert_flags(output, 0, ...)`, unhooks
accordingly, clears `active` and emits `stop`. -/
def obs_output_end_data_capture (o : Option obs_output) :
    Option obs_output × List Event :=
  match o with
  | none => (none, [])
  | some output =>
    if !output.active then (some output, [])
    else
      let c := convert_flags output.info.flags 0
      let ev :=
        if c.1 then
          (if c.2.1 then [Event.encoderStop EncoderType.video (c.2.1 && c.2.2)] else []) ++
          (if c.2.2 then [Event.encoderStop EncoderType.audio (c.2.1 && c.2.2)] else [])
        else
          (if c.2.1 then [Event.rawVideoDisconnect] else []) ++
          (if c.2.2 then [Event.rawAudioDisconnect] else [])
      (some { output with active := false }, ev ++ [Event.sigStop])

/-- `obs_output_start`: thin pass-through to the type's `start` hook, false
on a null handle without invoking the hook. -/
def obs_output_start (o : Option obs_output) : List Event × Bool :=
  match o with
  | none => ([], false)
  | some output => ([Event.hookStart], output.info.start_result)

/-- `obs_output_stop`: thin pass-through to the type's `stop` hook. -/
def obs_output_stop (o : Option obs_output) : List Event :=
  match o with
  | none => []
  | some _ => [Event.hookStop]

/-- `obs_output_active`. -/
def obs_output_active (o : Option obs_output) : Bool :=
  match o with
  | none => false
  | some output => output.active

/-- Modelled from the spec: `obs_data_apply` (obs-data.c is not under src/)
merges the new snapshot into the target key-wise; keys absent from the new
snapshot are preserved. -/
def obs_data_apply (target newSettings : List (Nat × Int)) : List (Nat × Int) :=
  newSettings.foldl
    (fun acc kv =>
      if acc.any (fun p => p.1 = kv.1) then
        acc.map (fun p => if p.1 = kv.1 then kv else p)
      else
        acc ++ [kv])
    target

/-- `obs_output_update`: merges the settings and invokes the type's `update`
hook when it exists; no-op on a null handle. -/
def obs_output_update (o : Option obs_output) (newSettings : List (Nat × Int)) :
    Option obs_output × List Event :=
  match o with
  | none => (none, [])
  | some output =>
    let output := { output with settings := obs_data_apply output.settings newSettings }
    (some output,
     Event.dataApply :: (if output.info.has_update then [Event.hookUpdate] else []))

/-- `obs_output_destroy`: tolerated on a null handle; a valid instance is
stopped if active and deregistered, then buffered packets, private state and
channels are released unconditionally. -/
def obs_output_destroy (o : Option obs_output) : List Event :=
  match o with
  | none => []
  | some output =>
    (if output.valid then
       (if output.active then [Event.hookStop] else []) ++ [Event.deregister]
     else []) ++
    [Event.freePackets] ++
    (if output.data then [Event.hookDestroy] else []) ++
    [Event.freeChannels]

/-- Marker for a read through a null instance pointer. -/
inductive DerefNull
  | instNull
deriving DecidableEq, Repr

/-- `obs_output_signal_start_fail`: unlike the other public operations it has
no null check; it calls `signal_start`, which immediately reads
`output->signals`, so a null handle is dereferenced (`Except.error`). -/
def obs_output_signal_start_fail (o : Option obs_output) (code : Int) :
    Except DerefNull (List Event) :=
  match o with
  | none => Except.error DerefNull.instNull
  | some _ => Except.ok [Event.sigStart code]

/-- World for the encoder-binding operations: the single output under study
(identified as output 0 in the encoder-side sets, possibly null) together
with each encoder's bound-outputs set, keyed by encoder id. -/
structure EncWorld where
  output : Option obs_output
  enc_outputs : List (Nat × List Nat)
deriving DecidableEq, Repr

/-- Modelled from the spec: `obs_encoder_remove_output` (obs-encoder.c is not
under src/) removes the output from the encoder's bound-outputs set; a null
encoder is tolerated as a no-op. -/
def obs_encoder_remove_output (sets : List (Nat × List Nat))
    (encoder : Option obs_encoder) (out_id : Nat) : List (Nat × List Nat) :=
  match encoder with
  | none => sets
  | some e =>
    sets.map (fun p => if p.1 = e.eid then (p.1, p.2.filter (fun i => i ≠ out_id)) else p)

/-- Modelled from the spec: `obs_encoder_add_output` (obs-encoder.c is not
under src/) adds the output to the encoder's bound-outputs set; a null
encoder is tolerated as a no-op. -/
def obs_encoder_add_output (sets : List (Nat × List Nat))
    (encoder : Option obs_encoder) (out_id : Nat) : List (Nat × List Nat) :=
  match encoder with
  | none => sets
  | some e =>
    sets.map (fun p =>
      if p.1 = e.eid then
        (p.1, if p.2.contains out_id then p.2 else p.2 ++ [out_id])
      else p)

/-- `obs_output_set_video_encoder`.  As in the source, BOTH encoder-side
calls receive the new `encoder` argument — the currently bound
`output->video_encoder` is never passed to the encoder-side remove. -/
def obs_output_set_video_encoder (w : EncWorld) (encoder : Option obs_encoder) :
    EncWorld :=
  match w.output with
  | none => w
  | some output =>
    if output.video_encoder = encoder then w
    else if (match encoder with
             | some e => decide (e.etype ≠ EncoderType.video)
             | none => false) then w
    else
      let sets := obs_encoder_remove_output w.enc_outputs encoder 0
      let sets := obs_encoder_add_output sets encoder 0
      { output := some { output with video_encoder := encoder }, enc_outputs := sets }

/-- `obs_output_set_audio_encoder`, with the same argument pattern as the
video variant. -/
def obs_output_set_audio_encoder (w : EncWorld) (encoder : Option obs_encoder) :
    EncWorld :=
  match w.output with
  | none => w
  | some output =>
    if output.audio_encoder = encoder then w
    else if (match encoder with
             | some e => decide (e.etype ≠ EncoderType.audio)
             | none => false) then w
    else
      let sets := obs_encoder_remove_output w.enc_outputs encoder 0
      let sets := obs_encoder_add_output sets encoder 0
      { output := some { output with audio_encoder := encoder }, enc_outputs := sets }

/-- Effective flag set as the spec words it: the type's full flag set when
the request is 0, the intersection with the type's set otherwise. -/
def effective_flags (info_flags flags : Nat) : Nat :=
  if flags = 0 then info_flags else flags &&& info_flags

/-- Spec-side readiness formulation, following the claim's words: a non-null,
inactive handle whose every requested-and-capable medium has its required
producer (the matching encoder when the type is encoded, the raw pipeline
otherwise). -/
def canBeginSpec (o : Option obs_output) (flags : Nat) : Prop :=
  ∃ output, o = some output ∧ output.active = false ∧
    (effective_flags output.info.flags flags &&& OBS_OUTPUT_VIDEO ≠ 0 →
      (if output.info.flags &&& OBS_OUTPUT_ENCODED ≠ 0 then
        output.video_encoder.isSome else output.video) = true) ∧
    (effective_flags output.info.flags flags &&& OBS_OUTPUT_AUDIO ≠ 0 →
      (if output.info.flags &&& OBS_OUTPUT_ENCODED ≠ 0 then
        output.audio_encoder.isSome else output.audio) = true)

/-- An AV-sync state in which both streams have already been received. -/
def ilBoth : InterleaveState :=
  { received_video := true
    received_audio := true
    first_video_ts := 0
    video_offset := 0
    audio_offset := 0
    buffer := [] }

/-- A type descriptor declaring encoded video+audio capability. -/
def info7 : obs_output_info :=
  { flags := OBS_OUTPUT_VIDEO ||| OBS_OUTPUT_AUDIO ||| OBS_OUTPUT_ENCODED
    has_update := false
    start_result := true }

/-- An inactive encoded-capable output with both encoders bound. -/
def outBase : obs_output :=
  { info := info7
    valid := true
    active := false
    data := true
    video := false
    audio := false
    video_encoder := some { eid := 1, etype := EncoderType.video }
    audio_encoder := some { eid := 2, etype := EncoderType.audio }
    video_conversion_set := false
    audio_conversion_set := false
    settings := []
    il := il0 }

/-- `outBase` carrying interleaver state from a previous capture session:
both received flags latched, offsets and anchor non-zero. -/
def ou7 : obs_output :=
  { outBase with
      il := { received_video := true
              received_audio := true
              first_video_ts := 42
              video_offset := 7
              audio_offset := 9
              buffer := [] } }

/-- Stack image for the C local `out` whose leftover `output_ts_us` is 5. -/
def junkA : ILPacket := { input_ts_us := 0, output_ts_us := 5, packet := vpkt 0 1 }

/-- Stack image for the C local `out` whose leftover `output_ts_us` is 3. -/
def junkB : ILPacket := { input_ts_us := 0, output_ts_us := 3, packet := vpkt 0 1 }

/-- Input for the ordering claim: one video packet then three audio packets,
each stream's dts non-decreasing; the audio timebase varies per packet, so
the last two audio packets fall below the first-video anchor in microseconds
and are discarded by `prepare_interleaved_packet`. -/
def c3input : List EncoderPacket :=
  [vpkt 10 1000000, apkt 10 1000000, apkt 10 2000000, apkt 10 4000000]

/-- The video encoder initially bound in the binding scenario. -/
def encV1 : obs_encoder := { eid := 1, etype := EncoderType.video }

/-- A second, distinct video encoder for the rebinding scenario. -/
def encV2 : obs_encoder := { eid := 3, etype := EncoderType.video }

/-- Binding world: output 0 is bound to `encV1`, and `encV1`'s bound-outputs
set contains output 0 (the symmetric-link invariant holds initially). -/
def w9 : EncWorld :=
  { output := some { outBase with video_encoder := some encV1 }
    enc_outputs := [(1, [0]), (3, [])] }

/-- Claim C1: the spec says every accepted packet is inserted into the
pending buffer at its sorted position and, once both streams have been
received, the buffer's front is released to the sink.  Evaluating the code
at a video packet with both streams already received: the inverted guard
`if (!prepare_interleaved_packet(...))` skips the branch for every
successfully prepared packet, so the buffer stays empty and nothing is
forwarded. -/
theorem c1_interleave_drops_prepared_video :
    (interleave_packets junkZ ilBoth (vpkt 5 1000000)).1.buffer = [] ∧
    (interleave_packets junkZ ilBoth (vpkt 5 1000000)).2 = [] := by decide

/-- Claim C2: the spec says audio arriving before any video is discarded —
never entered into the buffer, leaving the state unchanged.  Evaluating the
code at an audio packet preceding all video: preparation fails, so the
inverted guard runs the insertion branch and the discarded packet (with its
uninitialized fields) IS entered into the buffer, changing the state. -/
theorem c2_interleave_buffers_early_audio :
    ((interleave_packets junkZ il0 (apkt 5 1000000)).1.buffer).length = 1 ∧
    (interleave_packets junkZ il0 (apkt 5 1000000)).1 ≠ il0 ∧
    (interleave_packets junkZ il0 (apkt 5 1000000)).2 = [] := by decide

/-- Claim C3: the spec says that for per-stream non-decreasing dts the
released timestamps are non-decreasing.  Evaluating the code on `c3input`
(both streams' dts non-decreasing) with stack leftovers `junkA`, `junkB`:
the only packets ever released are the uninitialized buffer entries made
from discarded audio, and their adjusted timestamps come out as 5 then 3 —
a strictly decreasing released sequence. -/
theorem c3_release_order_not_monotone :
    nondec (stream_dts EncoderType.video c3input) = true ∧
    nondec (stream_dts EncoderType.audio c3input) = true ∧
    ((interleave_run junkZ [junkZ, junkZ, junkA, junkB] il0 c3input).2.map
        (fun p => p.output_ts_us)) = [5, 3] ∧
    nondec ((interleave_run junkZ [junkZ, junkZ, junkA, junkB] il0 c3input).2.map
        (fun p => p.output_ts_us)) = false := by decide

/-- Claim C4: the spec says the first released video packet has adjusted
dts 0.  Evaluating the code on a video packet followed by an accepted audio
packet: both are prepared successfully, so the inverted guard drops both —
no packet at all (in particular no video packet) is ever released, even
though both received flags are latched. -/
theorem c4_no_video_ever_released :
    (interleave_run junkZ [junkZ, junkZ] il0
        [vpkt 100 1000000, apkt 100 1000000]).2 = [] ∧
    (interleave_run junkZ [junkZ, junkZ] il0
        [vpkt 100 1000000, apkt 100 1000000]).1.received_video = true ∧
    (interleave_run junkZ [junkZ, junkZ] il0
        [vpkt 100 1000000, apkt 100 1000000]).1.received_audio = true := by decide

/-- Claim C7: the spec says a successful BeginDataCapture resets BOTH
received flags before hooking the encoders.  Evaluating the code on an
output carrying `received_audio = true` from a previous session: the call
succeeds, `received_video` is reset (the source assigns it twice), but
`received_audio` is still true afterwards. -/
theorem c7_begin_leaves_received_audio_set :
    (obs_output_begin_data_capture (some ou7) 0).2.2 = true ∧
    ((obs_output_begin_data_capture (some ou7) 0).1.map
        (fun o => o.il.received_video)) = some false ∧
    ((obs_output_begin_data_capture (some ou7) 0).1.map
        (fun o => o.il.received_audio)) = some true := by decide

/-- The state component of `hook_data_capture` depends only on whether the
type is encoded: the encoded branch resets `received_video` (twice), the raw
branch changes nothing; the requested media only select events. -/
theorem hook_data_capture_state (ou : obs_output) (e hv ha : Bool) :
    (hook_data_capture ou e hv ha).1 =
      if e then { ou with il := { ou.il with received_video := false } } else ou := by
  cases e <;> simp [hook_data_capture]

/-- Claim C5: `CanBeginDataCapture` succeeds exactly on a non-null, inactive
handle whose every requested-and-capable medium has its required producer —
the matching encoder when the type is encoded, the raw pipeline otherwise —
where the effective flags are the type's full flag set when the request is 0
and the intersection with the type's set otherwise. -/
theorem c5_can_begin_data_capture_iff (o : Option obs_output) (flags : Nat) :
    obs_output_can_begin_data_capture o flags = true ↔ canBeginSpec o flags := by
  cases o with
  | none => simp [obs_output_can_begin_data_capture, canBeginSpec]
  | some output =>
    simp only [obs_output_can_begin_data_capture, canBeginSpec, convert_flags,
      can_begin_data_capture, effective_flags, Option.some.injEq]
    by_cases hact : output.active
    · simp [hact]
    · by_cases hE : output.info.flags &&& OBS_OUTPUT_ENCODED = 0 <;>
      by_cases hV : (if flags = 0 then output.info.flags else
          flags &&& output.info.flags) &&& OBS_OUTPUT_VIDEO = 0 <;>
      by_cases hA : (if flags = 0 then output.info.flags else
          flags &&& output.info.flags) &&& OBS_OUTPUT_AUDIO = 0 <;>
        simp_all [bne_iff_ne, Option.isSome_iff_ne_none]

/-- Witness for C5: an inactive encoded output with both encoders bound
satisfies the spec-side readiness predicate, so the source predicate
returns true on it. -/
theorem c5_witness : obs_output_can_begin_data_capture (some outBase) 0 = true :=
  (c5_can_begin_data_capture_iff (some outBase) 0).mpr
    ⟨outBase, rfl, by decide, fun _ => by decide, fun _ => by decide⟩

/-- Claim C6: `BeginDataCapture` returns false with the state unchanged and
no events whenever its readiness guard fails; when the guard succeeds it
hooks the producers, sets `active := true`, emits `start` with the success
code after the hook events and returns true; and `EndDataCapture` on an
inactive output leaves it unchanged, so begin is the only transition into
Active among the capture operations. -/
theorem c6_begin_data_capture_spec (ou : obs_output) (flags : Nat) :
    obs_output_begin_data_capture none flags = (none, [], false)
    ∧ (obs_output_can_begin_data_capture (some ou) flags = false →
        obs_output_begin_data_capture (some ou) flags = (some ou, [], false))
    ∧ (obs_output_can_begin_data_capture (some ou) flags = true →
        obs_output_begin_data_capture (some ou) flags =
          (some { (hook_data_capture ou (convert_flags ou.info.flags flags).1
                     (convert_flags ou.info.flags flags).2.1
                     (convert_flags ou.info.flags flags).2.2).1 with active := true },
           (hook_data_capture ou (convert_flags ou.info.flags flags).1
                     (convert_flags ou.info.flags flags).2.1
                     (convert_flags ou.info.flags flags).2.2).2
             ++ [Event.sigStart OBS_OUTPUT_SUCCESS],
           true))
    ∧ (ou.active = false → (obs_output_end_data_capture (some ou)).1 = some ou) := by
  refine ⟨rfl, ?_, ?_, ?_⟩
  · intro h
    by_cases hact : ou.active
    · simp [obs_output_begin_data_capture, hact]
    · simp only [obs_output_can_begin_data_capture, if_neg hact] at h
      simp [obs_output_begin_data_capture, hact, h]
  · intro h
    by_cases hact : ou.active
    · simp [obs_output_can_begin_data_capture, hact] at h
    · simp only [obs_output_can_begin_data_capture, if_neg hact] at h
      simp [obs_output_begin_data_capture, hact, h]
  · intro h
    simp [obs_output_end_data_capture, h]

/-- Witness for C6: on the concrete ready output the guard holds, and the
successful begin hooks both encoders with the interleaving callback, sets
`active` and emits `start` with code 0. -/
theorem c6_witness :
    obs_output_begin_data_capture (some outBase) 0 =
      (some { outBase with active := true },
       [Event.encoderStart EncoderType.video true,
        Event.encoderStart EncoderType.audio true,
        Event.sigStart OBS_OUTPUT_SUCCESS],
       true) := by
  rw [(c6_begin_data_capture_spec outBase 0).2.2.1 (by decide)]
  decide

/-- The state produced by a successful begin does not depend on the
requested flags: only `encoded` (taken from the type's own flag set) selects
whether `received_video` is reset, and `active` is set in either case. -/
theorem begin_capture_state (ou : obs_output) (fl : Nat)
    (h : obs_output_can_begin_data_capture (some ou) fl = true) :
    (obs_output_begin_data_capture (some ou) fl).1 =
      some { (if (ou.info.flags &&& OBS_OUTPUT_ENCODED) != 0 then
                { ou with il := { ou.il with received_video := false } }
              else ou) with active := true } := by
  by_cases hact : ou.active
  · simp [obs_output_can_begin_data_capture, hact] at h
  · simp only [obs_output_can_begin_data_capture, if_neg hact] at h
    simp only [obs_output_begin_data_capture, if_neg hact, h, Bool.not_true,
      Bool.false_eq_true, if_false]
    rw [hook_data_capture_state]
    simp [convert_flags]

/-- Claim C8: `EndDataCapture` is a no-op on a null or inactive handle; on an
active output it recomputes the flags with request 0 — the type's FULL
capability set — unhooks according to that set, clears `active` and emits
`stop`; consequently its behaviour is independent of the flags passed to the
preceding successful `BeginDataCapture`. -/
theorem c8_end_data_capture_spec (ou : obs_output) :
    obs_output_end_data_capture none = (none, [])
    ∧ (ou.active = false → obs_output_end_data_capture (some ou) = (some ou, []))
    ∧ (ou.active = true →
        obs_output_end_data_capture (some ou) =
          (some { ou with active := false },
           (if (convert_flags ou.info.flags 0).1 then
              (if (convert_flags ou.info.flags 0).2.1 then
                 [Event.encoderStop EncoderType.video
                    ((convert_flags ou.info.flags 0).2.1 &&
                     (convert_flags ou.info.flags 0).2.2)] else []) ++
              (if (convert_flags ou.info.flags 0).2.2 then
                 [Event.encoderStop EncoderType.audio
                    ((convert_flags ou.info.flags 0).2.1 &&
                     (convert_flags ou.info.flags 0).2.2)] else [])
            else
              (if (convert_flags ou.info.flags 0).2.1 then
                 [Event.rawVideoDisconnect] else []) ++
              (if (convert_flags ou.info.flags 0).2.2 then
                 [Event.rawAudioDisconnect] else []))
           ++ [Event.sigStop]))
    ∧ (∀ f g : Nat,
        obs_output_can_begin_data_capture (some ou) f = true →
        obs_output_can_begin_data_capture (some ou) g = true →
        obs_output_end_data_capture ((obs_output_begin_data_capture (some ou) f).1) =
          obs_output_end_data_capture ((obs_output_begin_data_capture (some ou) g).1)) := by
  refine ⟨rfl, ?_, ?_, ?_⟩
  · intro h
    simp [obs_output_end_data_capture, h]
  · intro h
    simp [obs_output_end_data_capture, h]
  · intro f g hf hg
    rw [begin_capture_state ou f hf, begin_capture_state ou g hg]

/-- Witness for C8: ending capture on the concrete active encoded output
stops both encoders (interleaved callback), clears `active` and emits
`stop`. -/
theorem c8_witness :
    obs_output_end_data_capture (some { outBase with active := true }) =
      (some outBase,
       [Event.encoderStop EncoderType.video true,
        Event.encoderStop EncoderType.audio true,
        Event.sigStop]) := by
  rw [(c8_end_data_capture_spec { outBase with active := true }).2.2.1 rfl]
  decide

/-- Claim C10 counterexample: `SignalStartFailure` on a null handle is NOT a
safe no-op — the source performs no null check and `signal_start` reads
`output->signals` straight away, dereferencing the null instance. -/
theorem c10_signal_start_fail_derefs_null :
    obs_output_signal_start_fail none 0 = Except.error DerefNull.instNull := rfl

/-- Claim C10 (amended): every other listed public operation — Start, Stop,
Update, Destroy, IsActive, the capture operations and the encoder setters —
accepts a null handle and treats it as a no-op / false / null result without
dereferencing the instance. -/
theorem c10_null_handle_safe :
    obs_output_start none = ([], false)
    ∧ obs_output_stop none = []
    ∧ (∀ s, obs_output_update none s = (none, []))
    ∧ obs_output_destroy none = []
    ∧ obs_output_active none = false
    ∧ (∀ flags, obs_output_can_begin_data_capture none flags = false)
    ∧ (∀ flags, obs_output_begin_data_capture none flags = (none, [], false))
    ∧ obs_output_end_data_capture none = (none, [])
    ∧ (∀ sets e, obs_output_set_video_encoder ⟨none, sets⟩ e = ⟨none, sets⟩)
    ∧ (∀ sets e, obs_output_set_audio_encoder ⟨none, sets⟩ e = ⟨none, sets⟩) :=
  ⟨rfl, rfl, fun _ => rfl, rfl, rfl, fun _ => rfl, fun _ => rfl, rfl,
   fun _ _ => rfl, fun _ _ => rfl⟩

/-- Claim C9: the spec says a valid change first removes the OLD
bidirectional link via the encoder-side remove.  Evaluating the code on an
output bound to `encV1`: rebinding to `encV2` (and likewise to null) leaves
output 0 in `encV1`'s bound-outputs set, because the source passes the NEW
`encoder` argument to `obs_encoder_remove_output` instead of the currently
bound one — the symmetric-link invariant is broken. -/
theorem c9_old_encoder_link_not_removed :
    ((obs_output_set_video_encoder w9 (some encV2)).output.map
        (fun o => o.video_encoder)) = some (some encV2) ∧
    (obs_output_set_video_encoder w9 (some encV2)).enc_outputs
        = [(1, [0]), (3, [0])] ∧
    ((obs_output_set_video_encoder w9 none).output.map
        (fun o => o.video_encoder)) = some none ∧
    (obs_output_set_video_encoder w9 none).enc_outputs
        = [(1, [0]), (3, [])] := by decide

end ObsOutput
